import Mathlib

/-!
# Screen capture handler of `linux/runner/screen_capture.cc`

A shallow embedding of `handle_capture_screen` and `method_call_cb`.

* The X11, XRandR, libc and Flutter calls are external; what they return is
  collected in the record `XServer`, and the handler is a function of it.
* The handler yields the ordered list of the external calls it makes and of
  the accesses to the monitor array and to the image data (`Call`); the
  response sent to the method call is the `respond` entry of that list.
* C `int` values are `Int`.  The sums `mx + mw` and `my + mh` are taken in
  `Int` (X geometry is 16 bit on the wire, far from the limits of `int`).
  The products `cap_w * cap_h`, `num_pixels * 4` and the index `i * 4 + k`
  are reduced to 32 bits with `wrapInt`; `size_t` is 64 bits wide.
-/

namespace ScreenCapture

/-! ## Machine integers -/

def INT_MAX : Int := 2147483647

def INT_MIN : Int := -2147483648

/-- Result of a C `int` operation whose mathematical value is `z`
(two's complement, 32 bits). -/
def wrapInt (z : Int) : Int := (z + 2147483648) % 4294967296 - 2147483648

/-- Conversion of an `int` to `size_t` (64 bits). -/
def toSizeT (z : Int) : Nat := (z % 18446744073709551616).toNat

/-! ## Data -/

/-- The fields of `XRRMonitorInfo` read by the handler. -/
structure XRRMonitorInfo where
  x : Int
  y : Int
  width : Int
  height : Int
deriving DecidableEq, Repr

/-- An `XImage`: `data` viewed as an array of `uint32_t`. -/
structure XImage where
  data : List Nat
deriving DecidableEq, Repr

/-- The values `FlValue` takes in this file. -/
inductive FlValue where
  | int (n : Int)
  | uint8_list (bytes : List Nat)
deriving DecidableEq, Repr

/-- What is sent back on the method call. -/
inductive Response where
  | error (code : String) (message : String) (details : Option FlValue)
  | success (result : List (String × FlValue))
  | not_implemented
deriving DecidableEq, Repr

/-- External calls and memory accesses, in program order. -/
inductive Call where
  | XOpenDisplay
  | DefaultRootWindow
  | XQueryPointer
  | XRRGetMonitors
  | read_monitor (i : Nat)
  | XRRFreeMonitors
  | XGetWindowAttributes
  | XGetImage (x y w h : Int)
  | XCloseDisplay
  | malloc (size : Nat)
  | read_image (i : Nat)
  | XDestroyImage
  | fl_value_new_uint8_list (length : Nat)
  | free
  | respond (r : Response)
deriving DecidableEq, Repr

/-- Results of the external calls of one invocation. -/
structure XServer where
  /-- `XOpenDisplay(nullptr)` returned a display. -/
  XOpenDisplay : Bool
  /-- `root_x`, `root_y` written by `XQueryPointer`, if it wrote them. -/
  XQueryPointer : Option (Int × Int)
  /-- `XRRGetMonitors`: `none` is a null pointer, otherwise the array of
  `num_monitors` entries. -/
  XRRGetMonitors : Option (List XRRMonitorInfo)
  /-- `attr.width`, `attr.height` of the root window. -/
  XGetWindowAttributes : Int × Int
  /-- `XGetImage` on the root window for a region; `none` is a null pointer. -/
  XGetImage : Int → Int → Int → Int → Option XImage
  /-- Whether `malloc` of the given size returns a buffer. -/
  malloc : Nat → Bool
  /-- Contents of freshly allocated memory, by offset. -/
  heap : Nat → Nat

/-- The variables `cap_x`, `cap_y`, `cap_w`, `cap_h`. -/
structure Region where
  cap_x : Int
  cap_y : Int
  cap_w : Int
  cap_h : Int
deriving DecidableEq, Repr

/-! ## The handler -/

/-- The values of `cursor_x`, `cursor_y` after `XQueryPointer` (both are
initialised to 0). -/
def cursor_position (X : XServer) : Int × Int :=
  match X.XQueryPointer with
  | some p => p
  | none => (0, 0)

/-- The `for` loop over the monitors (lines 44-55), from index `i` on, with
the current value of the capture variables. -/
def monitor_loop (cursor_x cursor_y : Int) :
    List XRRMonitorInfo → Nat → Region → Region × List Call
  | [], _, cap => (cap, [])
  | m :: rest, i, cap =>
    let mx := m.x
    let my := m.y
    let mw := m.width
    let mh := m.height
    if cursor_x ≥ mx && cursor_x < mx + mw &&
        cursor_y ≥ my && cursor_y < my + mh then
      ({ cap_x := mx, cap_y := my, cap_w := mw, cap_h := mh }, [Call.read_monitor i])
    else
      let r := monitor_loop cursor_x cursor_y rest (i + 1) cap
      (r.1, Call.read_monitor i :: r.2)

/-- The block guarded by `monitors && num_monitors > 0` (lines 43-64). -/
def monitor_phase (X : XServer) (cursor_x cursor_y : Int) (cap : Region) :
    Region × List Call :=
  match X.XRRGetMonitors with
  | some (m0 :: rest) =>
    let r := monitor_loop cursor_x cursor_y (m0 :: rest) 0 cap
    if r.1.cap_w = 0 then
      ({ cap_x := m0.x, cap_y := m0.y, cap_w := m0.width, cap_h := m0.height },
        r.2 ++ [Call.read_monitor 0, Call.XRRFreeMonitors])
    else
      (r.1, r.2 ++ [Call.XRRFreeMonitors])
  | _ => (cap, [])

/-- The root window fallback (lines 67-72). -/
def root_fallback (X : XServer) (cap : Region) : Region × List Call :=
  if cap.cap_w = 0 then
    ({ cap with cap_w := X.XGetWindowAttributes.1, cap_h := X.XGetWindowAttributes.2 },
      [Call.XGetWindowAttributes])
  else
    (cap, [])

/-- Lines 38-72: the capture region, and the calls made to find it. -/
def select_region (X : XServer) : Region × List Call :=
  let c := cursor_position X
  let r1 := monitor_phase X c.1 c.2 { cap_x := 0, cap_y := 0, cap_w := 0, cap_h := 0 }
  let r2 := root_fallback X r1.1
  (r2.1, r1.2 ++ r2.2)

/-- Store of a byte at `rgba[idx]`. -/
def store (rgba : List Nat) (idx : Int) (v : Nat) : List Nat :=
  if 0 ≤ idx then rgba.set idx.toNat (v % 256) else rgba

/-- Body of the conversion loop (lines 98-102) for index `i`. -/
def convert_pixel (src : List Nat) (rgba : List Nat) (i : Nat) : List Nat :=
  let p := src.getD i 0 % 4294967296
  let rgba := store rgba (wrapInt (wrapInt ((i : Int) * 4) + 0)) ((p >>> 16) &&& 0xFF)
  let rgba := store rgba (wrapInt (wrapInt ((i : Int) * 4) + 1)) ((p >>> 8) &&& 0xFF)
  let rgba := store rgba (wrapInt (wrapInt ((i : Int) * 4) + 2)) ((p >>> 0) &&& 0xFF)
  store rgba (wrapInt (wrapInt ((i : Int) * 4) + 3)) 0xFF

/-- The conversion loop (lines 97-103): `i` runs from 0 while `i < num_pixels`. -/
def convert_loop (src : List Nat) (num_pixels : Int) (rgba : List Nat) : List Nat :=
  (List.range num_pixels.toNat).foldl (convert_pixel src) rgba

/-- The buffer returned by a successful `malloc (size)`. -/
def fresh_buffer (X : XServer) (size : Nat) : List Nat :=
  (List.range size).map (fun k => X.heap k % 256)

/-- The map operation `fl_value_set_string_take`: replace the value of an
existing key, otherwise append the entry. -/
def fl_value_set_string_take (self : List (String × FlValue)) (key : String)
    (value : FlValue) : List (String × FlValue) :=
  if self.any (fun e => e.1 == key) then
    self.map (fun e => if e.1 == key then (e.1, value) else e)
  else
    self ++ [(key, value)]

/-- Lines 107-112: the result map. -/
def build_result (cap : Region) (rgba : List Nat) (num_pixels : Int) :
    List (String × FlValue) :=
  let result : List (String × FlValue) := []
  let result := fl_value_set_string_take result "width" (FlValue.int cap.cap_w)
  let result := fl_value_set_string_take result "height" (FlValue.int cap.cap_h)
  fl_value_set_string_take result "pixels"
    (FlValue.uint8_list (rgba.take (toSizeT (wrapInt (num_pixels * 4)))))

/-- Lines 80-115, after the display was closed. -/
def convert_and_respond (X : XServer) (cap : Region) : List Call :=
  match X.XGetImage cap.cap_x cap.cap_y cap.cap_w cap.cap_h with
  | none =>
    [Call.respond (Response.error "CAPTURE_FAILED" "XGetImage returned null" none)]
  | some image =>
    let num_pixels := wrapInt (cap.cap_w * cap.cap_h)
    let size := toSizeT (wrapInt (num_pixels * 4))
    if X.malloc size = false then
      [Call.malloc size, Call.XDestroyImage,
        Call.respond (Response.error "OOM" "malloc failed" none)]
    else
      let rgba := convert_loop image.data num_pixels (fresh_buffer X size)
      [Call.malloc size] ++ (List.range num_pixels.toNat).map Call.read_image ++
        [Call.XDestroyImage, Call.fl_value_new_uint8_list size, Call.free,
          Call.respond (Response.success (build_result cap rgba num_pixels))]

/-- The function `handle_capture_screen`. -/
def handle_capture_screen (X : XServer) : List Call :=
  if X.XOpenDisplay = false then
    [Call.XOpenDisplay,
      Call.respond (Response.error "NO_DISPLAY" "Cannot open X display" none)]
  else
    let sel := select_region X
    let cap := sel.1
    [Call.XOpenDisplay, Call.DefaultRootWindow, Call.XQueryPointer, Call.XRRGetMonitors] ++
      sel.2 ++
      [Call.XGetImage cap.cap_x cap.cap_y cap.cap_w cap.cap_h, Call.XCloseDisplay] ++
      convert_and_respond X cap

/-- The function `method_call_cb`. -/
def method_call_cb (method : String) (X : XServer) : List Call :=
  if method = "captureScreen" then handle_capture_screen X
  else [Call.respond Response.not_implemented]

/-- The responses sent, in order. -/
def responses (t : List Call) : List Response :=
  t.filterMap (fun c => match c with
    | Call.respond r => some r
    | _ => none)

/-- The regions passed to `XGetImage`, in order. -/
def grabs (t : List Call) : List Region :=
  t.filterMap (fun c => match c with
    | Call.XGetImage x y w h => some { cap_x := x, cap_y := y, cap_w := w, cap_h := h }
    | _ => none)

/-! ## Vocabulary of the specification and sample servers -/

/-- Rectangle containment in the words of the specification:
`x ∈ [mx, mx+mw)` and `y ∈ [my, my+mh)`. -/
def rect_contains (m : XRRMonitorInfo) (cx cy : Int) : Prop :=
  m.x ≤ cx ∧ cx < m.x + m.width ∧ m.y ≤ cy ∧ cy < m.y + m.height

instance (m : XRRMonitorInfo) (cx cy : Int) : Decidable (rect_contains m cx cy) :=
  inferInstanceAs (Decidable (m.x ≤ cx ∧ cx < m.x + m.width ∧ m.y ≤ cy ∧ cy < m.y + m.height))

/-- The rectangle of a monitor as a capture region. -/
def rect (m : XRRMonitorInfo) : Region :=
  { cap_x := m.x, cap_y := m.y, cap_w := m.width, cap_h := m.height }

/-- A display server for the examples: it opens, hands out the given pointer
position, monitor list, root window size and image, and `malloc` answers as
told. -/
def sample_server (monitors : Option (List XRRMonitorInfo)) (cursor : Int × Int)
    (root : Int × Int) (image : Option XImage) (malloc_ok : Bool) : XServer :=
  { XOpenDisplay := true
    XQueryPointer := some cursor
    XRRGetMonitors := monitors
    XGetWindowAttributes := root
    XGetImage := fun _ _ _ _ => image
    malloc := fun _ => malloc_ok
    heap := fun k => k + 7 }

/-- The monitor list of the specification examples. -/
def two_monitors : List XRRMonitorInfo :=
  [{ x := 0, y := 0, width := 1920, height := 1080 },
   { x := 1920, y := 0, width := 1920, height := 1080 }]

/-- The image returned by the `XGetImage` call of the handler. -/
def grabbed_image (X : XServer) : Option XImage :=
  X.XGetImage (select_region X).1.cap_x (select_region X).1.cap_y
    (select_region X).1.cap_w (select_region X).1.cap_h

/-- The argument `num_pixels * 4` of `malloc`, as a `size_t`. -/
def buffer_size (X : XServer) : Nat :=
  toSizeT (wrapInt (wrapInt ((select_region X).1.cap_w * (select_region X).1.cap_h) * 4))

/-- A display server whose display cannot be opened. -/
def no_display_server : XServer :=
  { XOpenDisplay := false
    XQueryPointer := some (100, 100)
    XRRGetMonitors := some two_monitors
    XGetWindowAttributes := (3840, 1080)
    XGetImage := fun _ _ _ _ => some { data := [] }
    malloc := fun _ => true
    heap := fun _ => 0 }

theorem monitor_loop_cons (cx cy : Int) (m : XRRMonitorInfo) (rest : List XRRMonitorInfo)
    (i : Nat) (cap : Region) :
    monitor_loop cx cy (m :: rest) i cap =
      if rect_contains m cx cy then (rect m, [Call.read_monitor i])
      else ((monitor_loop cx cy rest (i + 1) cap).1,
        Call.read_monitor i :: (monitor_loop cx cy rest (i + 1) cap).2) := by
  by_cases h : rect_contains m cx cy
  · have h2 := h
    obtain ⟨a, b, c, d⟩ := h2
    simp [monitor_loop, h, rect, a, b, c, d]
  · have h2 : ¬ (m.x ≤ cx ∧ cx < m.x + m.width ∧ m.y ≤ cy ∧ cy < m.y + m.height) := h
    simp only [monitor_loop, if_neg h]
    rw [if_neg]
    simp only [Bool.and_eq_true, decide_eq_true_eq, ge_iff_le]
    tauto

theorem monitor_loop_first (cx cy : Int) (pre : List XRRMonitorInfo) (m : XRRMonitorInfo)
    (post : List XRRMonitorInfo) (i : Nat) (cap : Region)
    (hpre : ∀ k ∈ pre, ¬ rect_contains k cx cy) (hm : rect_contains m cx cy) :
    (monitor_loop cx cy (pre ++ m :: post) i cap).1 = rect m := by
  induction pre generalizing i with
  | nil => rw [List.nil_append, monitor_loop_cons, if_pos hm]
  | cons p rest ih =>
    rw [List.cons_append, monitor_loop_cons, if_neg (hpre p (List.mem_cons_self _ _))]
    exact ih (i + 1) (fun k hk => hpre k (List.mem_cons_of_mem _ hk))

theorem monitor_loop_reads (cx cy : Int) (ms : List XRRMonitorInfo) (i : Nat) (cap : Region) :
    ∀ c ∈ (monitor_loop cx cy ms i cap).2, ∃ j, c = Call.read_monitor j := by
  induction ms generalizing i with
  | nil => intro c hc; simp [monitor_loop] at hc
  | cons m rest ih =>
    intro c hc
    rw [monitor_loop_cons] at hc
    split at hc
    · simp at hc; exact ⟨i, hc⟩
    · simp only [List.mem_cons] at hc
      rcases hc with hc | hc
      · exact ⟨i, hc⟩
      · exact ih (i + 1) c hc

theorem select_region_calls (X : XServer) :
    ∀ c ∈ (select_region X).2,
      (∃ j, c = Call.read_monitor j) ∨ c = Call.XRRFreeMonitors ∨
        c = Call.XGetWindowAttributes := by
  intro c hc
  simp only [select_region, List.mem_append] at hc
  rcases hc with hc | hc
  · unfold monitor_phase at hc
    split at hc
    · dsimp only at hc
      split at hc
      · simp only [List.mem_append, List.mem_cons, List.mem_singleton, List.not_mem_nil,
          or_false] at hc
        rcases hc with hc | hc | hc
        · exact Or.inl (monitor_loop_reads _ _ _ _ _ c hc)
        · exact Or.inl ⟨0, hc⟩
        · exact Or.inr (Or.inl hc)
      · simp only [List.mem_append, List.mem_singleton] at hc
        rcases hc with hc | hc
        · exact Or.inl (monitor_loop_reads _ _ _ _ _ c hc)
        · exact Or.inr (Or.inl hc)
    · simp at hc
  · unfold root_fallback at hc
    split at hc
    · simp at hc; exact Or.inr (Or.inr hc)
    · simp at hc

theorem convert_and_respond_calls (X : XServer) (cap : Region) :
    ∀ c ∈ convert_and_respond X cap,
      (∃ n, c = Call.malloc n) ∨ (∃ i, c = Call.read_image i) ∨ c = Call.XDestroyImage ∨
        (∃ n, c = Call.fl_value_new_uint8_list n) ∨ c = Call.free ∨
        ∃ r, c = Call.respond r := by
  intro c hc
  unfold convert_and_respond at hc
  split at hc
  · simp at hc; exact Or.inr (Or.inr (Or.inr (Or.inr (Or.inr ⟨_, hc⟩))))
  · dsimp only at hc
    split at hc
    · simp at hc
      rcases hc with hc | hc | hc
      · exact Or.inl ⟨_, hc⟩
      · exact Or.inr (Or.inr (Or.inl hc))
      · exact Or.inr (Or.inr (Or.inr (Or.inr (Or.inr ⟨_, hc⟩))))
    · simp only [List.mem_append, List.mem_singleton, List.mem_map, List.mem_cons,
        List.not_mem_nil, or_false] at hc
      rcases hc with (hc | ⟨i, _, hc⟩) | hc | hc | hc | hc
      · exact Or.inl ⟨_, hc⟩
      · exact Or.inr (Or.inl ⟨i, hc.symm⟩)
      · exact Or.inr (Or.inr (Or.inl hc))
      · exact Or.inr (Or.inr (Or.inr (Or.inl ⟨_, hc⟩)))
      · exact Or.inr (Or.inr (Or.inr (Or.inr (Or.inl hc))))
      · exact Or.inr (Or.inr (Or.inr (Or.inr (Or.inr ⟨_, hc⟩))))

theorem grabs_select_region (X : XServer) : grabs (select_region X).2 = [] := by
  unfold grabs
  rw [List.filterMap_eq_nil_iff]
  intro c hc
  rcases select_region_calls X c hc with ⟨j, rfl⟩ | rfl | rfl <;> rfl

theorem grabs_convert_and_respond (X : XServer) (cap : Region) :
    grabs (convert_and_respond X cap) = [] := by
  unfold grabs
  rw [List.filterMap_eq_nil_iff]
  intro c hc
  rcases convert_and_respond_calls X cap c hc with
    ⟨n, rfl⟩ | ⟨i, rfl⟩ | rfl | ⟨n, rfl⟩ | rfl | ⟨r, rfl⟩ <;> rfl

/-- With an open display the handler grabs exactly once, the selected region. -/
theorem grabs_handle (X : XServer) (hopen : X.XOpenDisplay = true) :
    grabs (handle_capture_screen X) = [(select_region X).1] := by
  have h1 := grabs_select_region X
  have h2 := grabs_convert_and_respond X (select_region X).1
  unfold grabs at h1 h2
  simp [handle_capture_screen, hopen, grabs, List.filterMap_append, h1, h2]

theorem root_query_of_mem_handle (X : XServer)
    (h : Call.XGetWindowAttributes ∈ handle_capture_screen X) :
    Call.XGetWindowAttributes ∈ (select_region X).2 := by
  unfold handle_capture_screen at h
  split at h
  · simp at h
  · simp only [List.mem_append, List.mem_cons, List.mem_singleton, List.not_mem_nil,
      or_false, reduceCtorEq, false_or] at h
    rcases h with h | h
    · exact h
    · rcases convert_and_respond_calls X _ _ h with
        ⟨n, h⟩ | ⟨i, h⟩ | h | ⟨n, h⟩ | h | ⟨r, h⟩ <;> cases h

theorem monitor_phase_of_first (X : XServer) (cx cy : Int) (cap : Region)
    (pre : List XRRMonitorInfo) (m : XRRMonitorInfo) (post : List XRRMonitorInfo)
    (hms : X.XRRGetMonitors = some (pre ++ m :: post))
    (hpre : ∀ k ∈ pre, ¬ rect_contains k cx cy) (hm : rect_contains m cx cy) :
    (monitor_phase X cx cy cap).1 = rect m := by
  have hw : m.width ≠ 0 := by
    obtain ⟨a, b, _, _⟩ := hm
    omega
  have hl := monitor_loop_first cx cy pre m post 0 cap hpre hm
  unfold monitor_phase
  rw [hms]
  cases hpm : pre ++ m :: post with
  | nil => simp at hpm
  | cons m0 rest =>
    rw [hpm] at hl
    simp only [hl, rect, hw, if_false]

theorem monitor_phase_of_empty (X : XServer) (cx cy : Int) (cap : Region)
    (hms : X.XRRGetMonitors = none ∨ X.XRRGetMonitors = some []) :
    monitor_phase X cx cy cap = (cap, []) := by
  unfold monitor_phase
  rcases hms with h | h <;> rw [h]

theorem select_region_of_width (X : XServer) (r : Region)
    (h : (monitor_phase X (cursor_position X).1 (cursor_position X).2
      { cap_x := 0, cap_y := 0, cap_w := 0, cap_h := 0 }).1 = r) (hw : r.cap_w ≠ 0) :
    (select_region X).1 = r ∧ Call.XGetWindowAttributes ∉ (select_region X).2 := by
  constructor
  · simp only [select_region, root_fallback, h, hw, if_false]
  · intro hmem
    simp only [select_region, root_fallback, h, hw, if_false, List.append_nil] at hmem
    unfold monitor_phase at hmem
    split at hmem
    · dsimp only at hmem
      split at hmem
      · simp only [List.mem_append, List.mem_cons, List.mem_singleton, List.not_mem_nil,
          or_false, reduceCtorEq] at hmem
        rcases monitor_loop_reads _ _ _ _ _ _ hmem with ⟨j, hj⟩
        cases hj
      · simp only [List.mem_append, List.mem_singleton, reduceCtorEq, or_false] at hmem
        rcases monitor_loop_reads _ _ _ _ _ _ hmem with ⟨j, hj⟩
        cases hj
    · simp at hmem

/-- C1. When the cursor lies inside at least one monitor rectangle, the region
passed to the pixel grab is the rectangle of the first such monitor in
enumeration order: the handler grabs exactly that region, and the root window
is not queried. -/
theorem capture_region_is_first_monitor_under_cursor (X : XServer)
    (pre : List XRRMonitorInfo) (m : XRRMonitorInfo) (post : List XRRMonitorInfo)
    (hopen : X.XOpenDisplay = true)
    (hms : X.XRRGetMonitors = some (pre ++ m :: post))
    (hpre : ∀ k ∈ pre, ¬ rect_contains k (cursor_position X).1 (cursor_position X).2)
    (hm : rect_contains m (cursor_position X).1 (cursor_position X).2) :
    grabs (handle_capture_screen X) = [rect m] ∧
      Call.XGetWindowAttributes ∉ handle_capture_screen X := by
  have hw : (rect m).cap_w ≠ 0 := by
    obtain ⟨a, b, _, _⟩ := hm
    simp only [rect]
    omega
  have h := select_region_of_width X (rect m)
    (monitor_phase_of_first X _ _ _ pre m post hms hpre hm) hw
  refine ⟨?_, fun hmem => h.2 (root_query_of_mem_handle X hmem)⟩
  rw [grabs_handle X hopen, h.1]

theorem capture_region_is_first_monitor_under_cursor_witness :
    grabs (handle_capture_screen
        (sample_server (some two_monitors) (100, 100) (3840, 1080) none true)) =
      [{ cap_x := 0, cap_y := 0, cap_w := 1920, cap_h := 1080 }] ∧
    grabs (handle_capture_screen
        (sample_server (some two_monitors) (2000, 100) (3840, 1080) none true)) =
      [{ cap_x := 1920, cap_y := 0, cap_w := 1920, cap_h := 1080 }] :=
  ⟨(capture_region_is_first_monitor_under_cursor
      (sample_server (some two_monitors) (100, 100) (3840, 1080) none true)
      [] { x := 0, y := 0, width := 1920, height := 1080 }
      [{ x := 1920, y := 0, width := 1920, height := 1080 }]
      rfl rfl (by simp) (by decide)).1,
   (capture_region_is_first_monitor_under_cursor
      (sample_server (some two_monitors) (2000, 100) (3840, 1080) none true)
      [{ x := 0, y := 0, width := 1920, height := 1080 }]
      { x := 1920, y := 0, width := 1920, height := 1080 } []
      rfl rfl (by decide) (by decide)).1⟩

/-- C3. When the monitor enumeration returns null or zero monitors, the region
passed to the pixel grab is (0, 0, rw, rh) for the root window size (rw, rh),
whatever the cursor position. -/
theorem capture_region_is_root_window_without_monitors (X : XServer)
    (hopen : X.XOpenDisplay = true)
    (hms : X.XRRGetMonitors = none ∨ X.XRRGetMonitors = some []) :
    grabs (handle_capture_screen X) =
      [{ cap_x := 0, cap_y := 0, cap_w := X.XGetWindowAttributes.1,
         cap_h := X.XGetWindowAttributes.2 }] := by
  rw [grabs_handle X hopen]
  simp only [select_region, monitor_phase_of_empty X _ _ _ hms, root_fallback, if_true]

theorem capture_region_is_root_window_without_monitors_witness :
    grabs (handle_capture_screen
        (sample_server (some []) (700, 300) (2560, 1440) none true)) =
      [{ cap_x := 0, cap_y := 0, cap_w := 2560, cap_h := 1440 }] :=
  capture_region_is_root_window_without_monitors
    (sample_server (some []) (700, 300) (2560, 1440) none true) rfl (Or.inr rfl)

theorem wrapInt_of_fits (z : Int) (h1 : INT_MIN ≤ z) (h2 : z ≤ INT_MAX) : wrapInt z = z := by
  unfold wrapInt
  unfold INT_MIN at h1
  unfold INT_MAX at h2
  omega

theorem responses_select_region (X : XServer) : responses (select_region X).2 = [] := by
  unfold responses
  rw [List.filterMap_eq_nil_iff]
  intro c hc
  rcases select_region_calls X c hc with ⟨j, rfl⟩ | rfl | rfl <;> rfl

theorem handle_of_closed (X : XServer) (h : X.XOpenDisplay = false) :
    handle_capture_screen X =
      [Call.XOpenDisplay,
        Call.respond (Response.error "NO_DISPLAY" "Cannot open X display" none)] := by
  simp [handle_capture_screen, h]

theorem handle_of_open (X : XServer) (h : X.XOpenDisplay = true) :
    handle_capture_screen X =
      [Call.XOpenDisplay, Call.DefaultRootWindow, Call.XQueryPointer, Call.XRRGetMonitors] ++
        (select_region X).2 ++
        [Call.XGetImage (select_region X).1.cap_x (select_region X).1.cap_y
          (select_region X).1.cap_w (select_region X).1.cap_h, Call.XCloseDisplay] ++
        convert_and_respond X (select_region X).1 := by
  simp [handle_capture_screen, h]

theorem responses_handle_of_open (X : XServer) (h : X.XOpenDisplay = true) :
    responses (handle_capture_screen X) =
      responses (convert_and_respond X (select_region X).1) := by
  have h1 := responses_select_region X
  rw [handle_of_open X h]
  unfold responses at h1 ⊢
  simp [List.filterMap_append, h1]

theorem convert_of_no_memory (X : XServer) (cap : Region) (image : XImage)
    (h : X.XGetImage cap.cap_x cap.cap_y cap.cap_w cap.cap_h = some image)
    (hm : X.malloc (toSizeT (wrapInt (wrapInt (cap.cap_w * cap.cap_h) * 4))) = false) :
    convert_and_respond X cap =
      [Call.malloc (toSizeT (wrapInt (wrapInt (cap.cap_w * cap.cap_h) * 4))),
        Call.XDestroyImage, Call.respond (Response.error "OOM" "malloc failed" none)] := by
  simp [convert_and_respond, h, hm]

/-- C9. When the display connection cannot be opened, the handler makes the
call to `XOpenDisplay`, sends the NO_DISPLAY error, and does nothing else: no
pointer query, no monitor enumeration, no pixel grab, no allocation and no
success result. -/
theorem no_display_only_error (X : XServer) (h : X.XOpenDisplay = false) :
    method_call_cb "captureScreen" X =
      [Call.XOpenDisplay,
        Call.respond (Response.error "NO_DISPLAY" "Cannot open X display" none)] := by
  have hcb : method_call_cb "captureScreen" X = handle_capture_screen X := by
    simp [method_call_cb]
  rw [hcb, handle_of_closed X h]

theorem no_display_only_error_witness :
    method_call_cb "captureScreen" no_display_server =
      [Call.XOpenDisplay,
        Call.respond (Response.error "NO_DISPLAY" "Cannot open X display" none)] :=
  no_display_only_error no_display_server rfl

/-- C8 as stated fails: when the allocation fails the error code sent is the
string OOM, not OUT_OF_MEMORY. -/
theorem allocation_failure_code_is_not_out_of_memory :
    grabbed_image (sample_server (some two_monitors) (100, 100) (3840, 1080)
        (some { data := [] }) false) ≠ none ∧
    responses (method_call_cb "captureScreen"
        (sample_server (some two_monitors) (100, 100) (3840, 1080)
          (some { data := [] }) false)) =
      [Response.error "OOM" "malloc failed" none] ∧
    ∀ message details,
      responses (method_call_cb "captureScreen"
        (sample_server (some two_monitors) (100, 100) (3840, 1080)
          (some { data := [] }) false)) ≠
      [Response.error "OUT_OF_MEMORY" message details] := by
  refine ⟨by decide, by decide, ?_⟩
  intro message details h
  have h2 : responses (method_call_cb "captureScreen"
        (sample_server (some two_monitors) (100, 100) (3840, 1080)
          (some { data := [] }) false)) =
      [Response.error "OOM" "malloc failed" none] := by decide
  rw [h2] at h
  simp at h

/-- C8 (amended). When the image was obtained and the allocation of the
conversion buffer fails, the handler sends the error code OOM with the message
"malloc failed" and no details as its only response, the last three calls are
the failed `malloc`, `XDestroyImage` and that response, so the image is
destroyed before the error is sent, and no success result is sent. -/
theorem allocation_failure_destroys_image_then_reports_oom (X : XServer)
    (hopen : X.XOpenDisplay = true) (himg : grabbed_image X ≠ none)
    (hmalloc : X.malloc (buffer_size X) = false) :
    responses (method_call_cb "captureScreen" X) =
      [Response.error "OOM" "malloc failed" none] ∧
    ∃ before, method_call_cb "captureScreen" X =
        before ++ [Call.malloc (buffer_size X), Call.XDestroyImage,
          Call.respond (Response.error "OOM" "malloc failed" none)] ∧
      responses before = [] ∧ Call.XDestroyImage ∉ before := by
  have hcb : method_call_cb "captureScreen" X = handle_capture_screen X := by
    simp [method_call_cb]
  rw [hcb]
  obtain ⟨image, hi⟩ := Option.ne_none_iff_exists'.mp himg
  have hconv := convert_of_no_memory X (select_region X).1 image hi hmalloc
  refine ⟨?_, ?_⟩
  · rw [responses_handle_of_open X hopen, hconv]
    rfl
  · refine ⟨[Call.XOpenDisplay, Call.DefaultRootWindow, Call.XQueryPointer,
        Call.XRRGetMonitors] ++ (select_region X).2 ++
        [Call.XGetImage (select_region X).1.cap_x (select_region X).1.cap_y
          (select_region X).1.cap_w (select_region X).1.cap_h, Call.XCloseDisplay], ?_, ?_, ?_⟩
    · rw [handle_of_open X hopen, hconv]
      rfl
    · have h1 := responses_select_region X
      unfold responses at h1 ⊢
      simp [List.filterMap_append, h1]
    · intro hmem
      simp only [List.mem_append, List.mem_cons, List.mem_singleton, List.not_mem_nil,
        or_false, reduceCtorEq, false_or] at hmem
      rcases select_region_calls X _ hmem with ⟨j, h⟩ | h | h <;> cases h

theorem allocation_failure_destroys_image_then_reports_oom_witness :
    responses (method_call_cb "captureScreen"
        (sample_server (some two_monitors) (100, 100) (3840, 1080)
          (some { data := [] }) false)) =
      [Response.error "OOM" "malloc failed" none] :=
  (allocation_failure_destroys_image_then_reports_oom
    (sample_server (some two_monitors) (100, 100) (3840, 1080) (some { data := [] }) false)
    rfl (by decide) rfl).1

end ScreenCapture
